import Mathlib

/-
Verification of the SpaceInvaders display-core specification against the
source in `Space Invaders/main.cpp`.

The C++ source is shallowly embedded below:
  * `Buffer` (the CPU-side pixel buffer class) becomes a Lean structure with
    pure update functions; the `std::vector<uint32_t>` cells become a
    `List Nat` whose writes are truncated modulo 2^32.
  * `RGBToUint32` becomes a `Nat` function with the `uint8_t` parameters
    modelled by `% 256` and the `uint32_t` result by `% 2^32`.
  * The GLFW / GLEW / OpenGL world is modelled by an environment record
    `GLEnv` holding the outcomes the library calls would report, and `main`
    becomes a deterministic function from the environment to an exit code
    together with a trace of the observable calls it performs.
-/

namespace SpaceInvaders

/-! ## The Buffer class (main.cpp lines 9-27) -/

/-- Embedding of the C++ `Buffer` class: a width, a height and the
`std::vector<uint32_t> image_` of pixel cells, modelled as a list of
naturals, each kept below 2^32 by the write operations. -/
structure Buffer where
  width : Nat
  height : Nat
  image : List Nat
  deriving DecidableEq

/-- Embeds `Buffer::GetWidth` (line 15). -/
def Buffer.GetWidth (b : Buffer) : Nat := b.width

/-- Embeds `Buffer::GetHeight` (line 16). -/
def Buffer.GetHeight (b : Buffer) : Nat := b.height

/-- Embeds `Buffer::GetImage` (line 17): read access to the cell sequence. -/
def Buffer.GetImage (b : Buffer) : List Nat := b.image

/-- Embeds `Buffer::ClearImage(uint32_t color)` (lines 18-22): assigns `color` to
every cell.  The `% 2^32` models the `uint32_t` type of the cells. -/
def Buffer.ClearImage (b : Buffer) (color : Nat) : Buffer :=
  { b with image := b.image.map (fun _ => color % 2 ^ 32) }

/-- The C++ constructor `Buffer(size_t width, size_t height)` (lines 11-14):
`image_.resize(width * height)` value-initializes `width * height` cells to
zero, then `ClearImage(0)` runs over them. -/
def Buffer.create (width height : Nat) : Buffer :=
  Buffer.ClearImage
    { width := width, height := height, image := List.replicate (width * height) 0 } 0

/-- The operations available on a live buffer after construction.  Reads
(`GetWidth`, `GetHeight`, `GetImage`) do not change the state, so the only
state-changing operation is `ClearImage`. -/
inductive BufOp where
  | clear (color : Nat)
  deriving DecidableEq

/-- Apply one operation to a buffer. -/
def Buffer.applyOp (b : Buffer) : BufOp → Buffer
  | .clear c => b.ClearImage c

/-- Apply a whole sequence of operations, first to last. -/
def Buffer.applyOps (b : Buffer) (ops : List BufOp) : Buffer :=
  ops.foldl Buffer.applyOp b

/-! ## RGBToUint32 (main.cpp lines 49-51) -/

/-- Embeds `uint32_t RGBToUint32(uint8_t r, uint8_t g, uint8_t b)` (lines 49-51):
`(r << 24) | (g << 16) | (b << 8) | 255`.  The `% 256` on each argument
models the `uint8_t` parameter type and the final `% 2^32` the `uint32_t`
return type (the shifts happen in at least 32-bit arithmetic and the result
is converted to `uint32_t`, i.e. reduced modulo 2^32). -/
def RGBToUint32 (r g b : Nat) : Nat :=
  ((r % 256) <<< 24 ||| (g % 256) <<< 16 ||| (b % 256) <<< 8 ||| 255) % 2 ^ 32

/-- Byte extraction used to express that packing is invertible: the red
channel of a packed value (bits 24-31). -/
def unpackR (v : Nat) : Nat := v / 2 ^ 24 % 256

/-- The green channel of a packed value (bits 16-23). -/
def unpackG (v : Nat) : Nat := v / 2 ^ 16 % 256

/-- The blue channel of a packed value (bits 8-15). -/
def unpackB (v : Nat) : Nat := v / 2 ^ 8 % 256

/-- The alpha channel of a packed value (bits 0-7). -/
def unpackA (v : Nat) : Nat := v % 256

/-! ## Numeric constants of the OpenGL / GLFW API used by main.cpp -/

def GL_NO_ERROR : Nat := 0
def GL_INVALID_ENUM : Nat := 1280
def GL_INVALID_VALUE : Nat := 1281
def GL_INVALID_OPERATION : Nat := 1282
def GL_OUT_OF_MEMORY : Nat := 1285
def GL_INVALID_FRAMEBUFFER_OPERATION : Nat := 1286
def GL_TRIANGLES : Nat := 4
def GL_VERTEX_SHADER : Nat := 35633
def GL_FRAGMENT_SHADER : Nat := 35632
def GL_TEXTURE_MIN_FILTER : Nat := 10241
def GL_TEXTURE_MAG_FILTER : Nat := 10240
def GL_NEAREST : Nat := 9728
def GL_TEXTURE_WRAP_S : Nat := 10242
def GL_TEXTURE_WRAP_T : Nat := 10243
def GL_CLAMP_TO_EDGE : Nat := 33071
def GL_MAJOR_VERSION : Nat := 33307
def GL_MINOR_VERSION : Nat := 33308
def GL_RENDERER : Nat := 7937
def GL_SHADING_LANGUAGE_VERSION : Nat := 35724
def GLFW_OPENGL_PROFILE : Nat := 139272
def GLFW_OPENGL_CORE_PROFILE : Nat := 204801
def GLFW_CONTEXT_VERSION_MAJOR : Nat := 139266
def GLFW_CONTEXT_VERSION_MINOR : Nat := 139267
def GLFW_OPENGL_FORWARD_COMPAT : Nat := 139270

/-! ## GLDebug (main.cpp lines 33-47) -/

/-- The `switch` in `GLDebug` mapping an error code to its symbolic name. -/
def glErrorName (e : Nat) : String :=
  if e = GL_INVALID_ENUM then ("GL_INVALID_ENUM")
  else if e = GL_INVALID_VALUE then ("GL_INVALID_VALUE")
  else if e = GL_INVALID_OPERATION then ("GL_INVALID_OPERATION")
  else if e = GL_INVALID_FRAMEBUFFER_OPERATION then ("GL_INVALID_FRAMEBUFFER_OPERATION")
  else if e = GL_OUT_OF_MEMORY then ("GL_OUT_OF_MEMORY")
  else ("UNKNOWN_ERROR")

/-- The `while (GL_NO_ERROR != (errorNo = glGetError()))` loop viewed on the
driver-side queue of pending error codes: codes are consumed in order until
the queue is exhausted (after which `glGetError` reports `GL_NO_ERROR`) or a
`GL_NO_ERROR` entry stops the loop. -/
def drainErrors : List Nat → List Nat
  | [] => []
  | e :: rest => if e = GL_NO_ERROR then [] else e :: drainErrors rest

/-- Embeds `GLDebug(const char* file, int line)` (lines 33-47): drains every pending
error and emits one diagnostic line per error, carrying the symbolic error
name and the call-site `file : line` tag.  The function never terminates the
process. -/
def GLDebug (file : String) (line : Nat) (pending : List Nat) : List String :=
  (drainErrors pending).map (fun e => glErrorName e ++ " - " ++ file ++ " : " ++ toString line)

/-! ## ValidateShader / ValidateProgram (main.cpp lines 55-78) -/

/-- Embeds `ValidateShader(GLuint shader, const char* file)` (lines 55-64): reads
the shader info log (`infoLog` here stands for the text `glGetShaderInfoLog`
writes; the 512-byte truncation of the C buffer does not change whether the
log is empty) and, when it is non-empty, emits one diagnostic line.  It
never stops execution, whatever the log says. -/
def ValidateShader (shader : Nat) (infoLog : String) (file : String) : List String :=
  if 0 < infoLog.length then
    [("Shader ") ++ toString shader ++ ("(") ++ file ++ (") compile error: ") ++ infoLog]
  else []

/-- Embeds `ValidateProgram(GLuint program)` (lines 66-78): reads the program info
log and returns `false` (plus one diagnostic line) when it is non-empty,
`true` otherwise.  Note that the code inspects only the info-log length; it
never queries the actual `GL_LINK_STATUS`. -/
def ValidateProgram (program : Nat) (infoLog : String) : Bool × List String :=
  if 0 < infoLog.length then
    (false, [("Program ") ++ toString program ++ (" link error: ") ++ infoLog])
  else (true, [])

/-! ## The environment and the observable events of main (lines 80-232) -/

/-- Everything the windowing / graphics libraries decide on their own and
report back to `main`: success flags of the three fallible initialization
calls, the pending `glGetError` queue at the single `GLDebug` call site, the
info logs of the two shader stages and of the program link, the actual link
status the driver would report via `GL_LINK_STATUS` (the code never asks for
it), the version / renderer strings, and the number of frames after which
`glfwWindowShouldClose` first reports `true`. -/
structure GLEnv where
  glfwInitOk : Bool
  createWindowOk : Bool
  glewInitOk : Bool
  pendingErrors : List Nat
  vertexLog : String
  fragmentLog : String
  programLog : String
  linkStatus : Bool
  framesUntilClose : Nat
  glMajor : Nat
  glMinor : Nat
  rendererName : String
  glslVersion : String
  deriving DecidableEq

/-- One observable action of `main`: a call into GLFW / GLEW / OpenGL or a
line written to the standard output / error streams. -/
inductive Event where
  | setErrorCallback
  | glfwInitCall
  | windowHint (target value : Nat)
  | createWindow (w h : Nat) (title : String)
  | makeContextCurrent
  | glewInitCall
  | getIntegerv (pname : Nat)
  | glDebugQuery
  | getString (pname : Nat)
  | logLine (s : String)
  | genVertexArrays
  | createProgram
  | createShader (kind : Nat)
  | shaderSource (kind : Nat)
  | compileShader (kind : Nat)
  | getShaderInfoLog (kind : Nat)
  | attachShader (kind : Nat)
  | deleteShader (kind : Nat)
  | linkProgram
  | getProgramInfoLog
  | useProgram
  | genTextures
  | bindTexture
  | texImage2D (w h : Nat)
  | texParameteri (pname value : Nat)
  | getUniformLocation (uname : String)
  | uniform1i (v : Nat)
  | disableDepthTest
  | activeTexture
  | bindVertexArray
  | clearBuffer (color : Nat)
  | texSubImage2D (x y w h : Nat)
  | drawArrays (mode first count : Nat)
  | swapBuffers
  | pollEvents
  | destroyWindow
  | glfwTerminate
  | deleteVertexArrays
  | deleteProgram
  | deleteTextures
  deriving DecidableEq

/-- Embeds `constexpr size_t bufferWidth = 224` (line 92). -/
def bufferWidth : Nat := 224

/-- Embeds `constexpr size_t bufferHeight = 256` (line 93). -/
def bufferHeight : Nat := 256

/-- The GLSL vertex-stage source string (lines 122-133). -/
def vertexShaderText : String :=
  "\n#version 330\n\nnoperspective out vec2 TexCoord;\n\nvoid main(void) \x7b\n    TexCoord.x = (2 == gl_VertexID) ? 2.0 : 0.0;\n    TexCoord.y = (1 == gl_VertexID) ? 2.0 : 0.0;\n\n    gl_Position = vec4(2.0 * TexCoord - 1.0, 0.0, 1.0);\n\x7d\n"

/-- The GLSL fragment-stage source string (lines 134-146). -/
def fragmentShaderText : String :=
  "\n#version 330\n\nuniform sampler2D buffer;\nnoperspective in vec2 TexCoord;\n\nout vec3 outColor;\n\nvoid main(void) \x7b\n    outColor = texture(buffer, TexCoord).rgb;\n\x7d\n"

/-- Handles chosen by the driver in the model: the program is handle 1, the
vertex shader 2, the fragment shader 3 (the concrete values are never
branched on). -/
def programHandle : Nat := 1

def vertexShaderHandle : Nat := 2

def fragmentShaderHandle : Nat := 3

/-- The shader-build block of `main` (lines 148-187): generate the VAO,
create the program, then for each stage create / source / compile the shader,
run `ValidateShader`, attach it and delete the stage object; finally link and
run `ValidateProgram`.  Returns the `ValidateProgram` verdict together with
the events performed.  Note that compile diagnostics never branch: both
stages are always attached and the program is always linked. -/
def shaderPhase (env : GLEnv) : Bool × List Event :=
  let vMsgs := ValidateShader vertexShaderHandle env.vertexLog vertexShaderText
  let fMsgs := ValidateShader fragmentShaderHandle env.fragmentLog fragmentShaderText
  let pRes := ValidateProgram programHandle env.programLog
  (pRes.1,
    [Event.genVertexArrays, Event.createProgram,
     Event.createShader GL_VERTEX_SHADER, Event.shaderSource GL_VERTEX_SHADER,
     Event.compileShader GL_VERTEX_SHADER, Event.getShaderInfoLog GL_VERTEX_SHADER]
    ++ vMsgs.map Event.logLine
    ++ [Event.attachShader GL_VERTEX_SHADER, Event.deleteShader GL_VERTEX_SHADER,
        Event.createShader GL_FRAGMENT_SHADER, Event.shaderSource GL_FRAGMENT_SHADER,
        Event.compileShader GL_FRAGMENT_SHADER, Event.getShaderInfoLog GL_FRAGMENT_SHADER]
    ++ fMsgs.map Event.logLine
    ++ [Event.attachShader GL_FRAGMENT_SHADER, Event.deleteShader GL_FRAGMENT_SHADER,
        Event.linkProgram, Event.getProgramInfoLog]
    ++ pRes.2.map Event.logLine)

/-- The texture / uniform / state setup block (lines 189-211). -/
def texSetup (b : Buffer) : List Event :=
  [Event.useProgram, Event.genTextures, Event.bindTexture,
   Event.texImage2D b.GetWidth b.GetHeight,
   Event.texParameteri GL_TEXTURE_MIN_FILTER GL_NEAREST,
   Event.texParameteri GL_TEXTURE_MAG_FILTER GL_NEAREST,
   Event.texParameteri GL_TEXTURE_WRAP_S GL_CLAMP_TO_EDGE,
   Event.texParameteri GL_TEXTURE_WRAP_T GL_CLAMP_TO_EDGE,
   Event.getUniformLocation ("buffer"), Event.uniform1i 0,
   Event.disableDepthTest, Event.activeTexture, Event.bindVertexArray]

/-- Embeds `uint32_t clearColor = RGBToUint32(0, 128, 0)` (line 213). -/
def clearColor : Nat := RGBToUint32 0 128 0

/-- The frame loop (lines 214-227), indexed by how many times
`glfwWindowShouldClose` still reports `false`: each iteration clears the
buffer to `clearColor`, uploads the full buffer extent into the existing
texture with `glTexSubImage2D`, issues one `glDrawArrays(GL_TRIANGLES, 0, 3)`
call, swaps the buffers and polls pending events. -/
def frameLoop : Nat → Buffer → Buffer × List Event
  | 0, b => (b, [])
  | n + 1, b =>
    let b2 := b.ClearImage clearColor
    let rest := frameLoop n b2
    (rest.1,
      [Event.clearBuffer clearColor,
       Event.texSubImage2D 0 0 b2.GetWidth b2.GetHeight,
       Event.drawArrays GL_TRIANGLES 0 3,
       Event.swapBuffers, Event.pollEvents] ++ rest.2)

/-- Lines 81-84: install the error callback and call `glfwInit`. -/
def startTrace : List Event :=
  [Event.setErrorCallback, Event.glfwInitCall]

/-- Lines 87-97: the four window hints and the `glfwCreateWindow` call. -/
def windowTrace : List Event :=
  [Event.windowHint GLFW_OPENGL_PROFILE GLFW_OPENGL_CORE_PROFILE,
   Event.windowHint GLFW_CONTEXT_VERSION_MAJOR 3,
   Event.windowHint GLFW_CONTEXT_VERSION_MINOR 3,
   Event.windowHint GLFW_OPENGL_FORWARD_COMPAT 1,
   Event.createWindow bufferWidth bufferHeight ("Space Invaders")]

/-- Lines 103-105: make the context current and initialize GLEW. -/
def contextTrace : List Event :=
  [Event.makeContextCurrent, Event.glewInitCall]

/-- Lines 111-118: the two `glGetIntegerv` version queries, the single
`GLDebug(__FILE__, __LINE__)` call (line 114) with the diagnostic lines it
writes, and the three informational stdout lines. -/
def versionTrace (env : GLEnv) : List Event :=
  [Event.getIntegerv GL_MAJOR_VERSION, Event.getIntegerv GL_MINOR_VERSION,
   Event.glDebugQuery]
  ++ (GLDebug ("main.cpp") 114 env.pendingErrors).map Event.logLine
  ++ [Event.logLine (("Using OpenGL: ") ++ toString env.glMajor ++ (".")
        ++ toString env.glMinor),
      Event.getString GL_RENDERER,
      Event.logLine (("Renderer used: ") ++ env.rendererName),
      Event.getString GL_SHADING_LANGUAGE_VERSION,
      Event.logLine (("Shading Language: ") ++ env.glslVersion)]

/-- The whole of `main` (lines 80-232) as a function from the environment to
the process exit code together with the trace of observable events.  The
nested conditionals mirror the early `return -1` statements of the source. -/
def mainRun (env : GLEnv) : Int × List Event :=
  if !env.glfwInitOk then (-1, startTrace)
  else if !env.createWindowOk then
    (-1, startTrace ++ windowTrace ++ [Event.glfwTerminate])
  else if !env.glewInitOk then
    (-1, startTrace ++ windowTrace ++ contextTrace
         ++ [Event.logLine ("Error initializing GLEW"), Event.glfwTerminate])
  else
    let b := Buffer.create bufferWidth bufferHeight
    let pre := startTrace ++ windowTrace ++ contextTrace ++ versionTrace env
    let sp := shaderPhase env
    if !sp.1 then
      (-1, (pre ++ sp.2 ++ [Event.logLine ("Error while validating program")])
           ++ [Event.glfwTerminate, Event.deleteVertexArrays])
    else
      (0, (pre ++ sp.2 ++ texSetup b ++ (frameLoop env.framesUntilClose b).2)
          ++ [Event.destroyWindow, Event.glfwTerminate])

/-! ## Concrete environments used to instantiate the theorems -/

/-- All initializations succeed, the link reports success
(`linkStatus = true`) but the program info log carries a warning text. -/
def envC5cex : GLEnv :=
  GLEnv.mk true true true [] ("") ("") ("warning: shaders recompiled") true 0 3 3 ("") ("")

/-- All initializations succeed, the vertex stage has a compile diagnostic
and the program info log is non-empty. -/
def envC5wit : GLEnv :=
  GLEnv.mk true true true [] ("0(3) : error C0000: syntax") ("") ("link diagnostic") true 0 3 3 ("") ("")

/-- All initializations succeed, the link itself reports success, but the
program info log carries a warning text. -/
def envC6cex : GLEnv :=
  GLEnv.mk true true true [] ("") ("") ("warning: performance") true 0 3 3 ("") ("")

/-- A fully successful run with two pending GL errors at the `GLDebug` call
site and two frames before the window closes. -/
def envC8wit : GLEnv :=
  GLEnv.mk true true true [GL_INVALID_ENUM, GL_INVALID_VALUE] ("") ("") ("") true 2 3 3 ("") ("")

/-- A fully successful run with one frame before the window closes. -/
def envC9run : GLEnv :=
  GLEnv.mk true true true [] ("") ("") ("") true 1 3 3 ("") ("")

end SpaceInvaders

namespace SpaceInvaders

/-! ## Theorems about Buffer and RGBToUint32 -/

theorem ClearImage_width (b : Buffer) (c : Nat) : (b.ClearImage c).width = b.width := rfl

theorem ClearImage_height (b : Buffer) (c : Nat) : (b.ClearImage c).height = b.height := rfl

theorem ClearImage_length (b : Buffer) (c : Nat) :
    (b.ClearImage c).image.length = b.image.length := by
  simp [Buffer.ClearImage]

theorem create_image (W H : Nat) :
    (Buffer.create W H).image = List.replicate (W * H) 0 := by
  simp [Buffer.create, Buffer.ClearImage]

theorem ClearImage_image (b : Buffer) (c : Nat) :
    (b.ClearImage c).image = List.replicate b.image.length (c % 2 ^ 32) := by
  simp [Buffer.ClearImage, List.eq_replicate_iff]

theorem ClearImage_idem (b : Buffer) (c : Nat) :
    (b.ClearImage c).ClearImage c = b.ClearImage c := by
  simp [Buffer.ClearImage, List.map_map, Function.comp]

/-- C1. For every buffer created with positive width `W` and height `H` and
every 32-bit color `c`, `ClearImage c` sets all `W * H` cells of the image to
`c` (the operation is a total function, so there is no partial-failure mode),
and clearing twice with the same color gives the same state as clearing
once. -/
theorem clearImage_sets_all_cells_and_idempotent
    (W H c : Nat) (hW : 0 < W) (hH : 0 < H) (hc : c < 2 ^ 32) :
    (((Buffer.create W H).ClearImage c).image.length = W * H
      ∧ ∀ x ∈ ((Buffer.create W H).ClearImage c).image, x = c)
    ∧ ((Buffer.create W H).ClearImage c).ClearImage c
        = (Buffer.create W H).ClearImage c := by
  have hmod : c % 2 ^ 32 = c := Nat.mod_eq_of_lt hc
  refine ⟨⟨?_, ?_⟩, ?_⟩
  · rw [ClearImage_length]
    simp [create_image]
  · intro x hx
    rw [ClearImage_image, hmod] at hx
    exact (List.eq_of_mem_replicate hx)
  · exact ClearImage_idem (Buffer.create W H) c

/-- Witness for C1 at `W = 2`, `H = 3`, `c = 7`. -/
theorem clearImage_sets_all_cells_and_idempotent_witness :
    (((Buffer.create 2 3).ClearImage 7).image.length = 2 * 3
      ∧ ∀ x ∈ ((Buffer.create 2 3).ClearImage 7).image, x = 7)
    ∧ ((Buffer.create 2 3).ClearImage 7).ClearImage 7
        = (Buffer.create 2 3).ClearImage 7 :=
  clearImage_sets_all_cells_and_idempotent 2 3 7 (by decide) (by decide) (by decide)

/-- C2. For all positive `W` and `H`, the constructor yields a buffer whose
cell sequence has length exactly `W * H` with every cell equal to the zero
color.  (Allocation failure is the only failure mode in the C++ code and is
outside the functional model: the embedded constructor is total.) -/
theorem create_length_and_zero (W H : Nat) (hW : 0 < W) (hH : 0 < H) :
    (Buffer.create W H).GetImage.length = W * H
      ∧ ∀ x ∈ (Buffer.create W H).GetImage, x = 0 := by
  constructor
  · simp [Buffer.GetImage, create_image]
  · intro x hx
    simp only [Buffer.GetImage, create_image] at hx
    exact List.eq_of_mem_replicate hx

/-- Witness for C2 at `W = 3`, `H = 4`. -/
theorem create_length_and_zero_witness :
    (Buffer.create 3 4).GetImage.length = 3 * 4
      ∧ ∀ x ∈ (Buffer.create 3 4).GetImage, x = 0 :=
  create_length_and_zero 3 4 (by decide) (by decide)

/-- C4. Starting from a freshly constructed buffer, any sequence of
operations (the mutator `ClearImage`; reads do not change state) preserves
the invariant: the image length stays `W * H` and the values reported by
`GetWidth` and `GetHeight` never change. -/
theorem buffer_invariant (W H : Nat) (ops : List BufOp) :
    ((Buffer.create W H).applyOps ops).GetWidth = W
      ∧ ((Buffer.create W H).applyOps ops).GetHeight = H
      ∧ ((Buffer.create W H).applyOps ops).GetImage.length = W * H := by
  suffices h : ∀ (b : Buffer) (ops : List BufOp),
      (b.applyOps ops).GetWidth = b.GetWidth
        ∧ (b.applyOps ops).GetHeight = b.GetHeight
        ∧ (b.applyOps ops).GetImage.length = b.GetImage.length by
    obtain ⟨h1, h2, h3⟩ := h (Buffer.create W H) ops
    refine ⟨h1.trans rfl, h2.trans rfl, h3.trans ?_⟩
    simp [Buffer.GetImage, create_image]
  intro b ops
  induction ops generalizing b with
  | nil => exact ⟨rfl, rfl, rfl⟩
  | cons op rest ih =>
    obtain ⟨h1, h2, h3⟩ := ih (b.applyOp op)
    cases op with
    | clear c =>
      refine ⟨h1.trans ?_, h2.trans ?_, h3.trans ?_⟩
      · exact ClearImage_width b c
      · exact ClearImage_height b c
      · exact ClearImage_length b c

/-- The arithmetic form of the packing function: for in-range channels the
bitwise definition collapses to plain positional arithmetic. -/
theorem RGBToUint32_eq_arith (r g b : Nat) (hr : r < 256) (hg : g < 256) (hb : b < 256) :
    RGBToUint32 r g b = r * 2 ^ 24 + g * 2 ^ 16 + b * 2 ^ 8 + 255 := by
  unfold RGBToUint32
  rw [Nat.mod_eq_of_lt hr, Nat.mod_eq_of_lt hg, Nat.mod_eq_of_lt hb]
  rw [Nat.shiftLeft_eq, Nat.shiftLeft_eq, Nat.shiftLeft_eq]
  rw [Nat.lor_assoc, Nat.lor_assoc]
  rw [Nat.mul_comm b, ← Nat.mul_add_lt_is_or (by norm_num : (255 : Nat) < 2 ^ 8)]
  rw [Nat.mul_comm g, ← Nat.mul_add_lt_is_or (by omega : 2 ^ 8 * b + 255 < 2 ^ 16)]
  rw [Nat.mul_comm r,
    ← Nat.mul_add_lt_is_or (by omega : 2 ^ 16 * g + (2 ^ 8 * b + 255) < 2 ^ 24)]
  omega

/-- C10. `RGBToUint32 r g b` equals `r * 2^24 + g * 2^16 + b * 2^8 + 255`
modulo 2^32: red is the most significant byte, then green, then blue, and
the least significant byte (alpha) is always exactly 255. -/
theorem RGBToUint32_packing_layout (r g b : Nat) (hr : r < 256) (hg : g < 256) (hb : b < 256) :
    RGBToUint32 r g b = (r * 2 ^ 24 + g * 2 ^ 16 + b * 2 ^ 8 + 255) % 2 ^ 32
      ∧ unpackA (RGBToUint32 r g b) = 255 := by
  have h := RGBToUint32_eq_arith r g b hr hg hb
  constructor
  · rw [h]
    omega
  · unfold unpackA
    rw [h]
    omega

/-- Witness for C10 at `(r, g, b) = (1, 128, 255)`. -/
theorem RGBToUint32_packing_layout_witness :
    RGBToUint32 1 128 255 = (1 * 2 ^ 24 + 128 * 2 ^ 16 + 255 * 2 ^ 8 + 255) % 2 ^ 32
      ∧ unpackA (RGBToUint32 1 128 255) = 255 :=
  RGBToUint32_packing_layout 1 128 255 (by decide) (by decide) (by decide)

/-- C3. On the 24-bit domain (each channel below 256, alpha fixed at 255),
byte extraction is a left inverse of `RGBToUint32` — unpacking the packed
value recovers exactly the input channels — and consequently the packing
function is injective on that domain. -/
theorem RGBToUint32_left_inverse_and_injective
    (r g b : Nat) (hr : r < 256) (hg : g < 256) (hb : b < 256) :
    (unpackR (RGBToUint32 r g b) = r
      ∧ unpackG (RGBToUint32 r g b) = g
      ∧ unpackB (RGBToUint32 r g b) = b)
    ∧ ∀ r2 g2 b2, r2 < 256 → g2 < 256 → b2 < 256 →
        RGBToUint32 r2 g2 b2 = RGBToUint32 r g b → r2 = r ∧ g2 = g ∧ b2 = b := by
  have h := RGBToUint32_eq_arith r g b hr hg hb
  refine ⟨⟨?_, ?_, ?_⟩, ?_⟩
  · unfold unpackR
    rw [h]
    omega
  · unfold unpackG
    rw [h]
    omega
  · unfold unpackB
    rw [h]
    omega
  · intro r2 g2 b2 hr2 hg2 hb2 heq
    have h2 := RGBToUint32_eq_arith r2 g2 b2 hr2 hg2 hb2
    rw [h, h2] at heq
    omega

/-- Witness for C3 at `(r, g, b) = (7, 128, 200)`. -/
theorem RGBToUint32_left_inverse_and_injective_witness :
    (unpackR (RGBToUint32 7 128 200) = 7
      ∧ unpackG (RGBToUint32 7 128 200) = 128
      ∧ unpackB (RGBToUint32 7 128 200) = 200)
    ∧ ∀ r2 g2 b2, r2 < 256 → g2 < 256 → b2 < 256 →
        RGBToUint32 r2 g2 b2 = RGBToUint32 7 128 200 → r2 = 7 ∧ g2 = 128 ∧ b2 = 200 :=
  RGBToUint32_left_inverse_and_injective 7 128 200 (by decide) (by decide) (by decide)

/-! ## Theorems about the display pipeline -/

theorem GetWidth_ClearImage (b : Buffer) (c : Nat) :
    (b.ClearImage c).GetWidth = b.GetWidth := rfl

theorem GetHeight_ClearImage (b : Buffer) (c : Nat) :
    (b.ClearImage c).GetHeight = b.GetHeight := rfl

theorem frameLoop_trace (n : Nat) (b : Buffer) :
    (frameLoop n b).2 = List.flatten (List.replicate n
      [Event.clearBuffer clearColor,
       Event.texSubImage2D 0 0 b.GetWidth b.GetHeight,
       Event.drawArrays GL_TRIANGLES 0 3,
       Event.swapBuffers, Event.pollEvents]) := by
  induction n generalizing b with
  | zero => rfl
  | succ n ih =>
    simp only [frameLoop, ih, List.replicate_succ, List.flatten_cons]
    rfl

/-- C7. Each iteration of the frame loop, which runs for as long as
`glfwWindowShouldClose` keeps reporting `false`, performs exactly these
steps in this order: clear the pixel buffer to the fixed background color
`clearColor`, upload the buffer contents into the existing texture through a
sub-image update covering the whole `bufferWidth × bufferHeight` extent,
issue exactly one draw call of 3 vertices as triangles, swap the buffers,
and poll pending events. -/
theorem frame_loop_step_order (n : Nat) :
    (frameLoop n (Buffer.create bufferWidth bufferHeight)).2
      = List.flatten (List.replicate n
          [Event.clearBuffer clearColor,
           Event.texSubImage2D 0 0 bufferWidth bufferHeight,
           Event.drawArrays GL_TRIANGLES 0 3,
           Event.swapBuffers, Event.pollEvents]) := by
  rw [frameLoop_trace]
  rfl

/-- C6 (amended). The exit code of `main` is always 0 or -1; it is 0 exactly
when `glfwInit`, `glfwCreateWindow` and `glewInit` all succeed and the
program info log read by `ValidateProgram` is empty (the code substitutes
the info-log emptiness check for an actual link-status query), and -1 on
every other path; no other exit paths exist. -/
theorem mainRun_exit_codes (env : GLEnv) :
    ((mainRun env).1 = 0 ∨ (mainRun env).1 = -1)
    ∧ ((mainRun env).1 = 0 ↔
        (env.glfwInitOk = true ∧ env.createWindowOk = true ∧ env.glewInitOk = true
          ∧ env.programLog.length = 0)) := by
  obtain ⟨i, w, g, pe, vl, fl, pl, ls, fr, gM, gm, rn, gv⟩ := env
  cases i <;> cases w <;> cases g <;>
    by_cases hp : pl.length = 0 <;>
      simp [mainRun, shaderPhase, ValidateProgram, hp, Nat.pos_iff_ne_zero]

/-- C6 counterexample to the claim as stated: an environment in which every
fatal condition listed by the claim is absent — the windowing system, the
window and the loader all initialize, and the driver reports the link as
successful (`linkStatus = true`) — yet the process exits with -1, because
the link info log carries a (non-fatal) warning text and the code only
checks that log. -/
theorem exit_nonzero_without_listed_fatal_path :
    envC6cex.glfwInitOk = true ∧ envC6cex.createWindowOk = true
    ∧ envC6cex.glewInitOk = true ∧ envC6cex.linkStatus = true
    ∧ (mainRun envC6cex).1 = -1 := by
  refine ⟨rfl, rfl, rfl, rfl, ?_⟩
  decide

/-- C5 (amended). When the three initialization calls succeed: a shader
stage whose compilation produces a diagnostic (a non-empty info log) yields
a non-empty logged message and execution continues to the link call
regardless; the process continues past the shader-build phase if and only
if the program info log is empty (the code checks the info-log length, not
the actual link status); and on a non-empty program info log the process
exits with status -1 right after terminating the windowing system and
deleting the vertex array object (the program handle itself is never
deleted). -/
theorem shader_diagnostics_advisory_link_log_fatal (env : GLEnv)
    (hi : env.glfwInitOk = true) (hw : env.createWindowOk = true)
    (hg : env.glewInitOk = true) :
    (0 < env.vertexLog.length →
      ValidateShader vertexShaderHandle env.vertexLog vertexShaderText ≠ []
      ∧ ∀ s ∈ ValidateShader vertexShaderHandle env.vertexLog vertexShaderText,
          0 < s.length ∧ Event.logLine s ∈ (shaderPhase env).2)
    ∧ Event.linkProgram ∈ (shaderPhase env).2
    ∧ ((shaderPhase env).1 = true ↔ env.programLog.length = 0)
    ∧ (env.programLog.length ≠ 0 →
        (mainRun env).1 = -1
        ∧ ∃ t, (mainRun env).2 = t ++ [Event.glfwTerminate, Event.deleteVertexArrays]) := by
  refine ⟨?_, ?_, ?_, ?_⟩
  · intro hv
    constructor
    · simp [ValidateShader, hv]
    · intro s hs
      simp only [ValidateShader, hv, if_pos, List.mem_singleton] at hs
      constructor
      · rw [hs]
        have h7 : ("Shader ").length = 7 := rfl
        simp only [String.length_append]
        omega
      · have hmem : Event.logLine s ∈
            (ValidateShader vertexShaderHandle env.vertexLog vertexShaderText).map
              Event.logLine := by
          apply List.mem_map_of_mem
          simp [ValidateShader, hv, hs]
        simp only [shaderPhase, List.mem_append]
        tauto
  · simp [shaderPhase]
  · by_cases hp : env.programLog.length = 0 <;>
      simp [shaderPhase, ValidateProgram, hp, Nat.pos_iff_ne_zero]
  · intro hp
    obtain ⟨i, w, g, pe, vl, fl, pl, ls, fr, gM, gm, rn, gv⟩ := env
    simp only at hi hw hg hp
    subst hi hw hg
    constructor
    · simp [mainRun, shaderPhase, ValidateProgram, hp, Nat.pos_iff_ne_zero]
    · refine ⟨?_, ?_⟩
      case _ => exact
        (startTrace ++ windowTrace ++ contextTrace
            ++ versionTrace (GLEnv.mk true true true pe vl fl pl ls fr gM gm rn gv))
          ++ (shaderPhase (GLEnv.mk true true true pe vl fl pl ls fr gM gm rn gv)).2
          ++ [Event.logLine ("Error while validating program")]
      simp [mainRun, shaderPhase, ValidateProgram, hp, Nat.pos_iff_ne_zero]

/-- Witness for C5 at a concrete environment with a vertex-stage compile
diagnostic and a non-empty program info log. -/
theorem shader_diagnostics_advisory_link_log_fatal_witness :
    (0 < envC5wit.vertexLog.length →
      ValidateShader vertexShaderHandle envC5wit.vertexLog vertexShaderText ≠ []
      ∧ ∀ s ∈ ValidateShader vertexShaderHandle envC5wit.vertexLog vertexShaderText,
          0 < s.length ∧ Event.logLine s ∈ (shaderPhase envC5wit).2)
    ∧ Event.linkProgram ∈ (shaderPhase envC5wit).2
    ∧ ((shaderPhase envC5wit).1 = true ↔ envC5wit.programLog.length = 0)
    ∧ (envC5wit.programLog.length ≠ 0 →
        (mainRun envC5wit).1 = -1
        ∧ ∃ t, (mainRun envC5wit).2
            = t ++ [Event.glfwTerminate, Event.deleteVertexArrays]) :=
  shader_diagnostics_advisory_link_log_fatal envC5wit rfl rfl rfl

/-- C5 counterexample to the claim as stated: an environment in which the
driver reports the link as successful (`linkStatus = true`) but attaches a
warning text to the program info log; the code then does not continue past
the shader-build phase (it exits with -1), so continuation is not equivalent
to the link itself reporting success. -/
theorem no_continuation_despite_link_success :
    envC5cex.linkStatus = true ∧ (shaderPhase envC5cex).1 = false
    ∧ (mainRun envC5cex).1 = -1 := by
  refine ⟨rfl, ?_, ?_⟩ <;> decide

theorem drainErrors_eq_self (l : List Nat) (h : 0 ∉ l) : drainErrors l = l := by
  induction l with
  | nil => rfl
  | cons e rest ih =>
    simp only [List.mem_cons, not_or] at h
    obtain ⟨h1, h2⟩ := h
    simp only [drainErrors, GL_NO_ERROR]
    rw [if_neg (fun hc => h1 hc.symm), ih h2]

theorem count_glDebugQuery_map_logLine (xs : List String) :
    (xs.map Event.logLine).count Event.glDebugQuery = 0 := by
  rw [List.count_eq_zero]
  simp

theorem count_glDebugQuery_frameLoop (n : Nat) (b : Buffer) :
    (frameLoop n b).2.count Event.glDebugQuery = 0 := by
  rw [frameLoop_trace, List.count_eq_zero]
  simp [List.mem_flatten, List.mem_replicate]

/-- C8 (amended). The graphics error state is queried and drained exactly
once per run, by the single `GLDebug` call during setup (after the loader
initialization and the version queries); that call logs every pending error
with its symbolic name and its `file : line` call site and never halts
execution.  No error query follows any other graphics call: on a fully
successful run the whole trace contains exactly one query, and the frame
loop contains none at all. -/
theorem error_state_queried_once_in_setup (env : GLEnv)
    (h0 : 0 ∉ env.pendingErrors)
    (hi : env.glfwInitOk = true) (hw : env.createWindowOk = true)
    (hg : env.glewInitOk = true) (hp : env.programLog.length = 0) :
    (∀ file line, GLDebug file line env.pendingErrors
        = env.pendingErrors.map
            (fun e => glErrorName e ++ " - " ++ file ++ " : " ++ toString line))
    ∧ (mainRun env).2.count Event.glDebugQuery = 1
    ∧ (∀ n b, (frameLoop n b).2.count Event.glDebugQuery = 0) := by
  refine ⟨?_, ?_, ?_⟩
  · intro file line
    unfold GLDebug
    rw [drainErrors_eq_self _ h0]
  · obtain ⟨i, w, g, pe, vl, fl, pl, ls, fr, gM, gm, rn, gv⟩ := env
    simp only at hi hw hg hp h0
    subst hi hw hg
    simp [mainRun, shaderPhase, ValidateProgram, hp, versionTrace, startTrace,
      windowTrace, contextTrace, texSetup, List.count_append, List.count_cons,
      count_glDebugQuery_map_logLine, count_glDebugQuery_frameLoop]
  · exact count_glDebugQuery_frameLoop

/-- Witness for C8 at a concrete fully successful environment with two
pending errors at the `GLDebug` call site. -/
theorem error_state_queried_once_in_setup_witness :
    (∀ file line, GLDebug file line envC8wit.pendingErrors
        = envC8wit.pendingErrors.map
            (fun e => glErrorName e ++ " - " ++ file ++ " : " ++ toString line))
    ∧ (mainRun envC8wit).2.count Event.glDebugQuery = 1
    ∧ (∀ n b, (frameLoop n b).2.count Event.glDebugQuery = 0) :=
  error_state_queried_once_in_setup envC8wit (by decide) rfl rfl rfl rfl

/-- C8 counterexample to the claim as stated: one full frame-loop iteration
contains graphics calls that can silently fail (the sub-image upload and the
draw call) but not a single query of the graphics error state. -/
theorem frame_loop_never_queries_error_state :
    (frameLoop 1 (Buffer.create bufferWidth bufferHeight)).2
      = [Event.clearBuffer clearColor,
         Event.texSubImage2D 0 0 bufferWidth bufferHeight,
         Event.drawArrays GL_TRIANGLES 0 3,
         Event.swapBuffers, Event.pollEvents]
    ∧ (frameLoop 1 (Buffer.create bufferWidth bufferHeight)).2.count
        Event.glDebugQuery = 0 := by
  constructor
  · rfl
  · decide

/-- C9 (amended). On the normal frame-loop exit path the teardown consists
of destroying the window and then terminating the windowing system, and
nothing else: the vertex array object, the shader program and the texture
created during setup are never explicitly released anywhere in the run. -/
theorem teardown_releases_window_only (env : GLEnv)
    (hi : env.glfwInitOk = true) (hw : env.createWindowOk = true)
    (hg : env.glewInitOk = true) (hp : env.programLog.length = 0) :
    (∃ t, (mainRun env).2 = t ++ [Event.destroyWindow, Event.glfwTerminate])
    ∧ Event.deleteVertexArrays ∉ (mainRun env).2
    ∧ Event.deleteProgram ∉ (mainRun env).2
    ∧ Event.deleteTextures ∉ (mainRun env).2 := by
  obtain ⟨i, w, g, pe, vl, fl, pl, ls, fr, gM, gm, rn, gv⟩ := env
  simp only at hi hw hg hp
  subst hi hw hg
  refine ⟨⟨?_, ?_⟩, ?_, ?_, ?_⟩
  case _ => exact
    startTrace ++ windowTrace ++ contextTrace
      ++ versionTrace (GLEnv.mk true true true pe vl fl pl ls fr gM gm rn gv)
      ++ (shaderPhase (GLEnv.mk true true true pe vl fl pl ls fr gM gm rn gv)).2
      ++ texSetup (Buffer.create bufferWidth bufferHeight)
      ++ (frameLoop fr (Buffer.create bufferWidth bufferHeight)).2
  · simp [mainRun, shaderPhase, ValidateProgram, hp]
  all_goals
    simp [mainRun, shaderPhase, ValidateProgram, hp, versionTrace, startTrace,
      windowTrace, contextTrace, texSetup, frameLoop_trace, List.mem_append,
      List.mem_flatten, List.mem_replicate]

/-- Witness for C9 at a concrete fully successful one-frame environment. -/
theorem teardown_releases_window_only_witness :
    (∃ t, (mainRun envC9run).2 = t ++ [Event.destroyWindow, Event.glfwTerminate])
    ∧ Event.deleteVertexArrays ∉ (mainRun envC9run).2
    ∧ Event.deleteProgram ∉ (mainRun envC9run).2
    ∧ Event.deleteTextures ∉ (mainRun envC9run).2 :=
  teardown_releases_window_only envC9run rfl rfl rfl rfl

/-- C9 counterexample to the claim as stated: on a concrete normal-exit run
(exit code 0) the trace contains no release of the vertex array object, the
shader program or the texture, contradicting a teardown that releases every
graphics object created during setup. -/
theorem normal_exit_trace_has_no_object_deletes :
    (mainRun envC9run).1 = 0
    ∧ (mainRun envC9run).2.count Event.deleteVertexArrays = 0
    ∧ (mainRun envC9run).2.count Event.deleteProgram = 0
    ∧ (mainRun envC9run).2.count Event.deleteTextures = 0 := by
  refine ⟨?_, ?_, ?_, ?_⟩ <;> decide

end SpaceInvaders
